import Mathlib

/-!
Verification of the multi-provider LLM adapter layer
(`utils/llm_adapter.py`, `utils/adapters/*.py`, `utils/api_key_manager.py`).

Shallow embedding conventions:
* Python floats that hold USD costs are modelled as exact rationals (`ℚ`);
  every arithmetic operation performed on them in the source (literal
  construction, division by 1000, multiplication, addition) is mirrored
  one-for-one, so the embedded formulas parallel the source expressions.
* A Python function that may `raise` is modelled as returning `Except`.
* Truthiness of Python strings/lists (`if x:`) is modelled explicitly:
  a string is truthy iff it is nonempty, an optional list is truthy iff
  it is present and nonempty.
* `time.sleep`, log output and the jittered delay arithmetic of the retry
  wrapper affect neither the returned value nor the number of invocations,
  so they are not part of the embedded state.
-/

/-- `ModelCapabilities` dataclass from `utils/llm_adapter.py`. -/
structure ModelCapabilities where
  supports_vision : Bool
  supports_streaming : Bool
  supports_function_calling : Bool
  max_tokens : Nat
  supports_system_prompt : Bool
  cost_per_1k_input_tokens : ℚ
  cost_per_1k_output_tokens : ℚ
  deriving DecidableEq, Repr

/-- `ModelCapabilities()` with every field left at its dataclass default:
no vision, no streaming, no function calling, 4096 max tokens, system
prompts allowed, zero cost. -/
def ModelCapabilities.default : ModelCapabilities :=
  ⟨false, false, false, 4096, true, 0, 0⟩

/-- Stand-in for an in-memory PIL bitmap.  Validation and wire-format
encoding only inspect presence and the PNG byte buffer produced from it,
never the pixels themselves, so the carrier is just the mode tag. -/
structure PILImage where
  mode : String
  deriving DecidableEq, Repr

/-- `LLMRequest` dataclass from `utils/llm_adapter.py`. -/
structure LLMRequest where
  prompt : String
  images : Option (List PILImage)
  temperature : ℚ
  max_tokens : Nat
  system_prompt : Option String
  stream : Bool
  model : Option String
  deriving DecidableEq, Repr

/-- `LLMResponse` dataclass from `utils/llm_adapter.py` (metadata elided
to the finish-reason tag, the only field the claims can observe). -/
structure LLMResponse where
  text : String
  provider : String
  model : String
  input_tokens : Nat
  output_tokens : Nat
  cost : ℚ
  deriving DecidableEq, Repr

/-- The error surface of `generate`: the `ValueError` raised by
`validate_request` for images on a non-vision model, the explicit
image rejection of the text-only adapters, and an opaque stand-in for
any exception escaping the vendor client. -/
inductive AdapterError where
  | unsupportedModality (model : String)
  | imagesRejected (model : String)
  | network (code : Nat)
  deriving DecidableEq, Repr

/-- Python truthiness of `request.images`: present and nonempty. -/
def imagesTruthy (r : LLMRequest) : Bool :=
  match r.images with
  | none => false
  | some l => !l.isEmpty

/-- `request.model or self.default_model`: the explicit model wins unless
it is absent or the empty string (falsy). -/
def orDefault (m : Option String) (d : String) : String :=
  match m with
  | some s => if s = "" then d else s
  | none => d

/-- An adapter instance as far as validation and cost are concerned:
its default model and its `get_model_capabilities` lookup. -/
structure AdapterSpec where
  default_model : String
  caps : String → ModelCapabilities

/-- `BaseLLMAdapter.validate_request` (`utils/llm_adapter.py:92-104`):
resolve the model, raise `ValueError` when images are sent to a
non-vision model, otherwise clamp `max_tokens` to the capability ceiling
and succeed. -/
def validate_request (A : AdapterSpec) (r : LLMRequest) : Except AdapterError LLMRequest :=
  let model := orDefault r.model A.default_model
  let capabilities := A.caps model
  if imagesTruthy r && !capabilities.supports_vision then
    .error (.unsupportedModality model)
  else if r.max_tokens > capabilities.max_tokens then
    .ok { r with max_tokens := capabilities.max_tokens }
  else
    .ok r

/-- `BaseLLMAdapter.calculate_cost` (`utils/llm_adapter.py:106-111`). -/
def calculate_cost (A : AdapterSpec) (input_tokens output_tokens : Nat) (model : String) : ℚ :=
  let capabilities := A.caps model
  let input_cost := ((input_tokens : ℚ) / 1000) * capabilities.cost_per_1k_input_tokens
  let output_cost := ((output_tokens : ℚ) / 1000) * capabilities.cost_per_1k_output_tokens
  input_cost + output_cost

/-!
## Retry wrapper

`retry_with_exponential_backoff` (`utils/llm_adapter.py:139-165`) runs
`for attempt in range(max_retries)`, returning the callable's value on
success, re-raising the exception unchanged when `attempt == max_retries - 1`,
and otherwise sleeping and retrying.  When the loop body never returns or
raises (that is, when `range(max_retries)` is empty) the wrapper falls off
the end and returns `None`.

The callable is modelled as a function of the attempt index so that a
different outcome per invocation is expressible.  The embedded loop walks
the very list of attempt indices Python iterates.  The result distinguishes
`none` (the wrapper returned `None` without invoking anything) from
`some (.ok a)` (value returned) and `some (.error e)` (exception raised),
and the second component counts the invocations of the wrapped callable.
-/

/-- The loop body of the retry wrapper over the remaining attempt
indices.  Returns the outcome paired with the number of invocations. -/
def runAttempts {E A : Type} (f : Nat → Except E A) (max_retries : Int) :
    List Nat → Option (Except E A) × Nat
  | [] => (none, 0)
  | attempt :: rest =>
    match f attempt with
    | .ok a => (some (.ok a), 1)
    | .error e =>
      if (attempt : Int) = max_retries - 1 then
        (some (.error e), 1)
      else
        let o := runAttempts f max_retries rest
        (o.1, o.2 + 1)

/-- `retry_with_exponential_backoff(func, max_retries)`: iterate the loop
body over `range(max_retries)` (empty when `max_retries ≤ 0`). -/
def retry_with_exponential_backoff {E A : Type} (f : Nat → Except E A) (max_retries : Int) :
    Option (Except E A) × Nat :=
  runAttempts f max_retries (List.range max_retries.toNat)

/-!
## The shared shape of `generate`

Every adapter's `generate` is decorated with `@retry_with_exponential_backoff`
(all keyword parameters left at their defaults, so `max_retries = 3`) and its
body calls `self.validate_request(request)` first and only then touches the
vendor client.  One invocation of the body is therefore: validate; on
validation failure the exception propagates with no network call; otherwise
issue exactly one network call on the validated (possibly clamped) request.
-/

/-- One invocation of a `generate` body: the outcome paired with the
number of network calls issued by that invocation. -/
def generate_once {β : Type} (A : AdapterSpec)
    (net : LLMRequest → Except AdapterError β) (r : LLMRequest) :
    Except AdapterError β × Nat :=
  match validate_request A r with
  | .error e => (.error e, 0)
  | .ok validated => (net validated, 1)

/-- The decorated `generate`: the retry wrapper around the body, with the
vendor behaviour allowed to differ per attempt.  Returns the wrapper's
outcome, the number of body invocations, and the total number of network
calls issued across all invocations. -/
def generate_with_retry {β : Type} (A : AdapterSpec)
    (net : Nat → LLMRequest → Except AdapterError β) (r : LLMRequest) :
    (Option (Except AdapterError β) × Nat) × Nat :=
  let o := retry_with_exponential_backoff (fun i => (generate_once A (net i) r).1) 3
  (o, ((List.range o.2).map fun i => (generate_once A (net i) r).2).sum)

/-!
## Capability tables

One table per adapter that has one, transcribed entry-for-entry from
`get_model_capabilities` of the corresponding `utils/adapters/*.py` file.
Each `capabilities_map.get(model, ModelCapabilities())` lookup becomes
`capsFromTable`.
-/

/-- Build a descriptor from the keyword arguments the adapters pass:
vision, streaming, function calling, max tokens, both costs.
`supports_system_prompt` is never passed and keeps its default `true`. -/
def mkCaps (v s fc : Bool) (mt : Nat) (ci co : ℚ) : ModelCapabilities :=
  ⟨v, s, fc, mt, true, ci, co⟩

/-- `capabilities_map.get(model, ModelCapabilities())`. -/
def capsFromTable (tbl : List (String × ModelCapabilities)) (model : String) : ModelCapabilities :=
  match tbl.find? (fun p => p.1 == model) with
  | some p => p.2
  | none => ModelCapabilities.default

/-- `OpenAIAdapter.get_model_capabilities` table (`openai_adapter.py:43-95`). -/
def openai_capabilities_map : List (String × ModelCapabilities) :=
  [("gpt-4o", mkCaps true true true 4096 0.005 0.015),
   ("gpt-4o-mini", mkCaps true true true 16384 0.00015 0.0006),
   ("gpt-4-turbo", mkCaps true true true 4096 0.01 0.03),
   ("gpt-4-vision-preview", mkCaps true true false 4096 0.01 0.03),
   ("gpt-4", mkCaps false true true 8192 0.03 0.06),
   ("gpt-3.5-turbo", mkCaps false true true 4096 0.0005 0.0015)]

/-- `AnthropicAdapter.get_model_capabilities` table (`anthropic_adapter.py:41-77`). -/
def anthropic_capabilities_map : List (String × ModelCapabilities) :=
  [("claude-3-5-sonnet-20241022", mkCaps true true true 8192 0.003 0.015),
   ("claude-3-opus-20240229", mkCaps true true true 4096 0.015 0.075),
   ("claude-3-sonnet-20240229", mkCaps true true true 4096 0.003 0.015),
   ("claude-3-haiku-20240307", mkCaps true true true 4096 0.00025 0.00125)]

/-- `GeminiAdapter.get_model_capabilities` table (`gemini_adapter.py:40-76`). -/
def gemini_capabilities_map : List (String × ModelCapabilities) :=
  [("gemini-2.0-flash-exp", mkCaps true true true 8192 0 0),
   ("gemini-1.5-pro", mkCaps true true true 8192 0.00125 0.005),
   ("gemini-1.5-flash", mkCaps true true true 8192 0.000075 0.0003),
   ("gemini-1.5-flash-8b", mkCaps true true true 8192 0.0000375 0.00015)]

/-- `CohereAdapter.get_model_capabilities` table (`cohere_adapter.py:39-75`). -/
def cohere_capabilities_map : List (String × ModelCapabilities) :=
  [("command-r-plus", mkCaps false true true 4096 0.003 0.015),
   ("command-r", mkCaps false true true 4096 0.0005 0.0015),
   ("command", mkCaps false true false 4096 0.001 0.002),
   ("command-light", mkCaps false true false 4096 0.0003 0.0006)]

/-- `AzureOpenAIAdapter.get_model_capabilities` table (`azure_adapter.py:51-95`). -/
def azure_capabilities_map : List (String × ModelCapabilities) :=
  [("gpt-4o", mkCaps true true true 4096 0.005 0.015),
   ("gpt-4-turbo", mkCaps true true true 4096 0.01 0.03),
   ("gpt-4-vision", mkCaps true true false 4096 0.01 0.03),
   ("gpt-4", mkCaps false true true 8192 0.03 0.06),
   ("gpt-35-turbo", mkCaps false true true 4096 0.0005 0.0015)]

/-- `GroqAdapter.get_model_capabilities` table (`groq_adapter.py:58-115`). -/
def groq_capabilities_map : List (String × ModelCapabilities) :=
  [("llama-3.3-70b-versatile", mkCaps false true true 8192 0.00059 0.00079),
   ("llama-3.1-70b-versatile", mkCaps false true true 8192 0.00059 0.00079),
   ("llama-3.1-8b-instant", mkCaps false true true 8192 0.00005 0.00008),
   ("mixtral-8x7b-32768", mkCaps false true true 32768 0.00024 0.00024),
   ("gemma2-9b-it", mkCaps false true false 8192 0.0002 0.0002),
   ("llama-3.2-90b-vision-preview", mkCaps true true false 8192 0.0009 0.0009),
   ("llama-3.2-11b-vision-preview", mkCaps true true false 8192 0.00018 0.00018)]

/-- The `vision_models` list of `GroqAdapter.get_model_capabilities`. -/
def groq_vision_models : List String :=
  ["llama-3.2-90b-vision-preview", "llama-3.2-11b-vision-preview"]

/-- Groq's fallback for a model outside its table:
`ModelCapabilities(supports_vision=model in vision_models, supports_streaming=True, max_tokens=8192)`
with the remaining fields at their dataclass defaults. -/
def groqFallback (model : String) : ModelCapabilities :=
  ⟨groq_vision_models.contains model, true, false, 8192, true, 0, 0⟩

/-- `GroqAdapter.get_model_capabilities`: table lookup with the richer
fallback instead of the bare dataclass default. -/
def groq_get_model_capabilities (model : String) : ModelCapabilities :=
  match groq_capabilities_map.find? (fun p => p.1 == model) with
  | some p => p.2
  | none => groqFallback model

/-- `CustomLLMAdapter.get_model_capabilities` (`custom_adapter.py:54-64`):
one fixed descriptor for every model, with vision and streaming assumed. -/
def custom_get_model_capabilities (_model : String) : ModelCapabilities :=
  ⟨true, true, true, 4096, true, 0, 0⟩

/-- `HuggingFaceAdapter.get_model_capabilities` (`huggingface_adapter.py:41-51`):
one fixed text-only descriptor for every model. -/
def huggingface_get_model_capabilities (_model : String) : ModelCapabilities :=
  ⟨false, true, false, 4096, true, 0, 0⟩

/-- `sub in s` on Python strings: `needle` occurs contiguously in `hay`. -/
def listStartsWith : List Char → List Char → Bool
  | [], _ => true
  | _ :: _, [] => false
  | a :: as, b :: bs => a = b && listStartsWith as bs

/-- Substring containment over the underlying character lists. -/
def containsSub (needle hay : List Char) : Bool :=
  (List.range (hay.length + 1)).any fun i => listStartsWith needle (hay.drop i)

/-- The `vision_models` list of `OpenRouterAdapter.get_model_capabilities`. -/
def openrouter_vision_models : List String :=
  ["google/gemini-2.0-flash-exp:free", "google/gemini-pro-1.5", "google/gemini-flash-1.5",
   "openai/gpt-4o", "openai/gpt-4-turbo",
   "anthropic/claude-3.5-sonnet", "anthropic/claude-3-opus"]

/-- `OpenRouterAdapter.get_model_capabilities` (`openrouter_adapter.py:58-80`):
a computed descriptor for every model, vision iff any known vision-model id
occurs as a substring of the requested id. -/
def openrouter_get_model_capabilities (model : String) : ModelCapabilities :=
  let sv := openrouter_vision_models.any fun vm => containsSub vm.toList model.toList
  ⟨sv, true, true, 8192, true, 0, 0⟩

/-- The adapters' capability tables, keyed by provider, for the
table-based adapters (the other three compute a descriptor instead). -/
def all_capability_tables : List (String × List (String × ModelCapabilities)) :=
  [("openai", openai_capabilities_map),
   ("anthropic", anthropic_capabilities_map),
   ("gemini", gemini_capabilities_map),
   ("cohere", cohere_capabilities_map),
   ("azure", azure_capabilities_map),
   ("groq", groq_capabilities_map)]

/-- The OpenAI adapter as seen by validation and cost calculation. -/
def openai_adapter : AdapterSpec :=
  ⟨"gpt-4o", capsFromTable openai_capabilities_map⟩

/-- The Anthropic adapter as seen by validation and cost calculation. -/
def anthropic_adapter : AdapterSpec :=
  ⟨"claude-3-5-sonnet-20241022", capsFromTable anthropic_capabilities_map⟩

/-- The Gemini adapter as seen by validation and cost calculation. -/
def gemini_adapter : AdapterSpec :=
  ⟨"gemini-2.0-flash-exp", capsFromTable gemini_capabilities_map⟩

/-- The Cohere adapter as seen by validation and cost calculation. -/
def cohere_adapter : AdapterSpec :=
  ⟨"command-r-plus", capsFromTable cohere_capabilities_map⟩

/-- The Azure OpenAI adapter as seen by validation and cost calculation. -/
def azure_adapter : AdapterSpec :=
  ⟨"gpt-4o", capsFromTable azure_capabilities_map⟩

/-- The Groq adapter as seen by validation and cost calculation. -/
def groq_adapter : AdapterSpec :=
  ⟨"llama-3.3-70b-versatile", groq_get_model_capabilities⟩

/-- The HuggingFace adapter as seen by validation and cost calculation. -/
def huggingface_adapter : AdapterSpec :=
  ⟨"meta-llama/Meta-Llama-3-8B-Instruct", huggingface_get_model_capabilities⟩

/-- The OpenRouter adapter as seen by validation and cost calculation. -/
def openrouter_adapter : AdapterSpec :=
  ⟨"google/gemini-2.0-flash-exp:free", openrouter_get_model_capabilities⟩

/-- A custom adapter with the default model left at its `gpt-4o` default. -/
def custom_adapter : AdapterSpec :=
  ⟨"gpt-4o", custom_get_model_capabilities⟩

/-!
## Credential resolution (`utils/api_key_manager.py`)

The three tiers are modelled as total maps into `Option String`:
`session_api_keys` is `st.session_state.api_keys` (absent keys map to
`none`), `secrets` is `st.secrets` (the `hasattr` guard always holds and
no exception is modelled, as the happy path of the source), `env` is
`os.getenv`.  `azure_endpoint` is `st.session_state.azure_endpoint`,
initialised to the empty (falsy) string.
-/

/-- `KeySource` enum from `utils/api_key_manager.py`. -/
inductive KeySource where
  | session
  | secrets
  | env
  | not_set
  deriving DecidableEq, Repr

/-- A resolved credential: a plain key for most providers, a key/endpoint
pair (the returned dict) for Azure. -/
inductive CredValue where
  | single (key : String)
  | azurePair (key endpoint : String)
  deriving DecidableEq, Repr

/-- The credential stores visible to `APIKeyManager`. -/
structure CredState where
  session_api_keys : String → Option String
  azure_endpoint : String
  secrets : String → Option String
  env : String → Option String

/-- `PROVIDER_KEY_MAP` restricted to the single-variable providers; the
`azure` entry of the source maps to a two-element list and is intercepted
by the `provider == 'azure'` branch before this map is consulted. -/
def PROVIDER_KEY_MAP : List (String × String) :=
  [("openai", "OPENAI_API_KEY"),
   ("anthropic", "ANTHROPIC_API_KEY"),
   ("gemini", "GEMINI_API_KEY"),
   ("cohere", "COHERE_API_KEY"),
   ("openrouter", "OPENROUTER_API_KEY"),
   ("groq", "GROQ_API_KEY"),
   ("huggingface", "HUGGINGFACE_API_KEY")]

/-- `PROVIDER_KEY_MAP.get(provider)`. -/
def keyNameFor (provider : String) : Option String :=
  (PROVIDER_KEY_MAP.find? (fun p => p.1 == provider)).map Prod.snd

/-- Tier 3 of `get_api_key`: `os.getenv(key_name)`, returned with the
`ENV` tag when truthy, otherwise `(None, NOT_SET)`. -/
def env_tier (st : CredState) (key_name : String) : Option CredValue × KeySource :=
  match st.env key_name with
  | some v => if v = "" then (none, KeySource.not_set) else (some (.single v), KeySource.env)
  | none => (none, KeySource.not_set)

/-- Tier 2 of `get_api_key`: `key_name in st.secrets` returns the stored
value with the `SECRETS` tag (membership alone decides — the value is not
truthiness-checked), otherwise fall through to the environment tier. -/
def secrets_tier (st : CredState) (key_name : String) : Option CredValue × KeySource :=
  match st.secrets key_name with
  | some v => (some (.single v), KeySource.secrets)
  | none => env_tier st key_name

/-- Tier 3 of `_get_azure_credentials`: both environment variables must be
present and truthy. -/
def azure_env_tier (st : CredState) : Option CredValue × KeySource :=
  match st.env "AZURE_OPENAI_KEY", st.env "AZURE_OPENAI_ENDPOINT" with
  | some k, some e =>
    if k ≠ "" ∧ e ≠ "" then (some (.azurePair k e), KeySource.env)
    else (none, KeySource.not_set)
  | _, _ => (none, KeySource.not_set)

/-- Tier 2 of `_get_azure_credentials`: both names must be members of the
secret store (values not truthiness-checked), else fall through. -/
def azure_secrets_tier (st : CredState) : Option CredValue × KeySource :=
  match st.secrets "AZURE_OPENAI_KEY", st.secrets "AZURE_OPENAI_ENDPOINT" with
  | some k, some e => (some (.azurePair k e), KeySource.secrets)
  | _, _ => azure_env_tier st

/-- `APIKeyManager._get_azure_credentials` (`api_key_manager.py:140-169`):
a truthy session key together with a truthy session endpoint resolves at
the session tier; otherwise each lower tier must supply both parts
itself. -/
def get_azure_credentials (st : CredState) : Option CredValue × KeySource :=
  match st.session_api_keys "azure" with
  | some key =>
    if key = "" then azure_secrets_tier st
    else if st.azure_endpoint ≠ "" then
      (some (.azurePair key st.azure_endpoint), KeySource.session)
    else azure_secrets_tier st
  | none => azure_secrets_tier st

/-- `APIKeyManager.get_api_key` (`api_key_manager.py:101-138`). -/
def get_api_key (st : CredState) (provider : String) : Option CredValue × KeySource :=
  if provider = "azure" then get_azure_credentials st
  else
    match keyNameFor provider with
    | none => (none, KeySource.not_set)
    | some key_name =>
      match st.session_api_keys provider with
      | some v =>
        if v = "" then secrets_tier st key_name
        else (some (.single v), KeySource.session)
      | none => secrets_tier st key_name

/-- The session tier holds no truthy value for `provider`. -/
def sessionMissing (st : CredState) (provider : String) : Prop :=
  st.session_api_keys provider = none ∨ st.session_api_keys provider = some ""

/-- Azure resolves at the session tier: truthy session key and truthy
session endpoint. -/
def azureSessionResolved (st : CredState) : Prop :=
  ∃ k, st.session_api_keys "azure" = some k ∧ k ≠ "" ∧ st.azure_endpoint ≠ ""

/-- Azure resolves at the secrets tier: both names present. -/
def azureSecretsResolved (st : CredState) : Prop :=
  (st.secrets "AZURE_OPENAI_KEY").isSome = true ∧
  (st.secrets "AZURE_OPENAI_ENDPOINT").isSome = true

/-- Azure resolves at the environment tier: both variables truthy. -/
def azureEnvResolved (st : CredState) : Prop :=
  ∃ k e, st.env "AZURE_OPENAI_KEY" = some k ∧ k ≠ "" ∧
    st.env "AZURE_OPENAI_ENDPOINT" = some e ∧ e ≠ ""

/-!
## Image wire format (`_prepare_image_content` / `_encode_image`)

The adapters PNG-encode the RGB-converted bitmap with the vendor library,
`base64.b64encode` the byte buffer, and embed the text in a
`data:image/png;base64,` URI.  The PNG encoder itself lives in the PIL
dependency, so the embedding quantifies over the byte buffer it produces;
the standard base64 codec (RFC 4648 alphabet, `=` padding, as implemented
by `base64.b64encode`/`b64decode`) is embedded directly.  Bytes and ASCII
characters are `Nat` below 256.
-/

/-- The standard base64 alphabet as ASCII codes:
`A`–`Z`, `a`–`z`, `0`–`9`, `+`, `/`. -/
def b64Alphabet : List Nat :=
  (List.range 26).map (· + 65) ++ (List.range 26).map (· + 97) ++
    (List.range 10).map (· + 48) ++ [43, 47]

/-- Sextet value to alphabet character. -/
def encSextet (n : Nat) : Nat :=
  b64Alphabet.getD n 0

/-- Alphabet character back to its sextet value. -/
def decSextet (c : Nat) : Option Nat :=
  b64Alphabet.findIdx? (fun a => a = c)

/-- ASCII `=`, the padding character. -/
def padChar : Nat := 61

/-- `base64.b64encode`: three bytes become four alphabet characters; a
final group of one or two bytes is padded with `=`. -/
def b64EncodeBytes : List Nat → List Nat
  | b0 :: b1 :: b2 :: rest =>
    encSextet (b0 / 4) :: encSextet (b0 % 4 * 16 + b1 / 16) ::
      encSextet (b1 % 16 * 4 + b2 / 64) :: encSextet (b2 % 64) :: b64EncodeBytes rest
  | [b0, b1] =>
    [encSextet (b0 / 4), encSextet (b0 % 4 * 16 + b1 / 16), encSextet (b1 % 16 * 4), padChar]
  | [b0] =>
    [encSextet (b0 / 4), encSextet (b0 % 4 * 16), padChar, padChar]
  | [] => []

/-- `base64.b64decode` on well-formed input: four characters at a time,
honouring `=` padding (which may only close the final group), failing on
any character outside the alphabet or any malformed shape. -/
def b64DecodeBytes : List Nat → Option (List Nat)
  | [] => some []
  | c0 :: c1 :: c2 :: c3 :: rest =>
    match decSextet c0, decSextet c1 with
    | some s0, some s1 =>
      if c2 = padChar ∧ c3 = padChar then
        if rest = [] then some [s0 * 4 + s1 / 16] else none
      else
        match decSextet c2 with
        | some s2 =>
          if c3 = padChar then
            if rest = [] then some [s0 * 4 + s1 / 16, s1 % 16 * 16 + s2 / 4] else none
          else
            match decSextet c3 with
            | some s3 =>
              match b64DecodeBytes rest with
              | some bs =>
                some ((s0 * 4 + s1 / 16) :: (s1 % 16 * 16 + s2 / 4) :: (s2 % 4 * 64 + s3) :: bs)
              | none => none
            | none => none
        | none => none
    | _, _ => none
  | _ => none

/-- The ASCII codes of `"data:image/png;base64,"`. -/
def dataUriHead : List Nat :=
  [100, 97, 116, 97, 58, 105, 109, 97, 103, 101, 47, 112, 110, 103, 59,
   98, 97, 115, 101, 54, 52, 44]

/-- The adapters' wire format for one image, over the PNG byte buffer:
`f"data:image/png;base64,{img_base64}"`. -/
def encode_image_uri (png : List Nat) : List Nat :=
  dataUriHead ++ b64EncodeBytes png

/-- Recover the base64 payload from a data URI: strip the fixed head. -/
def dataUriPayload (uri : List Nat) : Option (List Nat) :=
  if uri.take dataUriHead.length = dataUriHead then some (uri.drop dataUriHead.length)
  else none

/-!
## Helper lemmas
-/

/-- A callable that raises on every attempt exhausts all three default
attempts, and the wrapper re-raises the exception of the final attempt. -/
lemma retry3_const_error {E A : Type} (f : Nat → Except E A) (err : Nat → E)
    (h : ∀ n, f n = .error (err n)) :
    retry_with_exponential_backoff f 3 = (some (.error (err 2)), 3) := by
  show runAttempts f 3 [0, 1, 2] = _
  simp [runAttempts, h 0, h 1, h 2]

/-- Under images without vision support, validation raises the
unsupported-modality `ValueError` for the resolved model. -/
lemma validate_request_unsupported (A : AdapterSpec) (r : LLMRequest)
    (himg : imagesTruthy r = true)
    (hvis : (A.caps (orDefault r.model A.default_model)).supports_vision = false) :
    validate_request A r = .error (.unsupportedModality (orDefault r.model A.default_model)) := by
  unfold validate_request
  simp [himg, hvis]

/-- With validation failing, one invocation of the `generate` body raises
that error and issues no network call. -/
lemma generate_once_of_validation_error {β : Type} (A : AdapterSpec)
    (net : LLMRequest → Except AdapterError β) (r : LLMRequest) (e : AdapterError)
    (h : validate_request A r = .error e) :
    generate_once A net r = (.error e, 0) := by
  unfold generate_once
  rw [h]

/-!
## Claims
-/

/-- C2: with `max_retries = 3`, a callable that raises on its first two
invocations and succeeds on the third makes the wrapper return the success
value after exactly 3 invocations; a callable that raises on every
invocation is invoked exactly 3 times and the wrapper re-raises the third
invocation's exception itself, unchanged. -/
theorem retry_max3_contract {E A : Type} (f : Nat → Except E A) :
    (∀ (a : A) (e0 e1 : E), f 0 = .error e0 → f 1 = .error e1 → f 2 = .ok a →
      retry_with_exponential_backoff f 3 = (some (.ok a), 3)) ∧
    (∀ err : Nat → E, (∀ n, f n = .error (err n)) →
      retry_with_exponential_backoff f 3 = (some (.error (err 2)), 3)) := by
  constructor
  · intro a e0 e1 h0 h1 h2
    show runAttempts f 3 [0, 1, 2] = _
    simp [runAttempts, h0, h1, h2]
  · intro err h
    exact retry3_const_error f err h

/-- Witness for C2: a concrete callable failing twice then succeeding. -/
theorem retry_max3_contract_witness :
    retry_with_exponential_backoff
      (fun n => if n < 2 then (Except.error n : Except Nat Nat) else .ok 7) 3 =
      (some (.ok 7), 3) :=
  (retry_max3_contract _).1 7 0 1 rfl rfl rfl

/-- C10: with a non-positive `max_retries` the attempt loop body never
runs, so the wrapped callable is never invoked and the wrapper falls off
the loop, returning Python's implicit `None` — neither a value nor an
exception reaches the caller. -/
theorem retry_nonpositive_returns_none {E A : Type} (f : Nat → Except E A)
    (m : Int) (hm : m ≤ 0) :
    retry_with_exponential_backoff f m = (none, 0) := by
  unfold retry_with_exponential_backoff
  rw [Int.toNat_of_nonpos hm]
  rfl

/-- Witness for C10: `max_retries = 0` with a callable that would succeed. -/
theorem retry_nonpositive_returns_none_witness :
    retry_with_exponential_backoff (fun _ => (Except.ok 1 : Except Nat Nat)) 0 = (none, 0) :=
  retry_nonpositive_returns_none _ 0 (by decide)

/-- A request carrying one image, aimed at the Cohere adapter's default
model (no vision support). -/
def c1_request : LLMRequest :=
  ⟨"Describe the scan", some [⟨"RGB"⟩], 1 / 10, 1000, none, false, none⟩

/-- C1 counterexample: on the Cohere adapter, a request whose validation
fails (images on a non-vision model) has its `generate` body invoked 3
times by the retry wrapper — the validation failure is retried, not
raised exactly once. -/
theorem validation_error_is_retried :
    (generate_with_retry cohere_adapter
        (fun _ _ => (Except.error (AdapterError.network 503) : Except AdapterError LLMResponse))
        c1_request).1.2 = 3 ∧
    ¬ (generate_with_retry cohere_adapter
        (fun _ _ => (Except.error (AdapterError.network 503) : Except AdapterError LLMResponse))
        c1_request).1.2 = 1 := by
  constructor
  · decide
  · decide

/-- C1 (amended): a validation failure is raised before any network
attempt within every invocation — zero network calls are issued across
the whole retried `generate` — but the retry wrapper does retry it like
any other exception: the body runs exactly `max_retries = 3` times and
the final validation error then propagates unchanged. -/
theorem validation_failure_before_network_but_retried {β : Type} (A : AdapterSpec)
    (net : Nat → LLMRequest → Except AdapterError β) (r : LLMRequest)
    (himg : imagesTruthy r = true)
    (hvis : (A.caps (orDefault r.model A.default_model)).supports_vision = false) :
    (generate_with_retry A net r).1.2 = 3 ∧
    (generate_with_retry A net r).2 = 0 ∧
    (generate_with_retry A net r).1.1 =
      some (.error (.unsupportedModality (orDefault r.model A.default_model))) := by
  have hval := validate_request_unsupported A r himg hvis
  have honce : ∀ i, generate_once A (net i) r =
      (.error (.unsupportedModality (orDefault r.model A.default_model)), 0) :=
    fun i => generate_once_of_validation_error A (net i) r _ hval
  have hretry := retry3_const_error (fun i => (generate_once A (net i) r).1)
    (fun _ => .unsupportedModality (orDefault r.model A.default_model))
    (fun n => by simp only [honce n])
  unfold generate_with_retry
  rw [hretry]
  refine ⟨rfl, ?_, rfl⟩
  simp [honce]

/-- Witness for the amended C1: the concrete Cohere request above. -/
theorem validation_failure_before_network_but_retried_witness :
    (generate_with_retry cohere_adapter
        (fun _ _ => (Except.error (AdapterError.network 503) : Except AdapterError LLMResponse))
        c1_request).1.2 = 3 ∧
    (generate_with_retry cohere_adapter
        (fun _ _ => (Except.error (AdapterError.network 503) : Except AdapterError LLMResponse))
        c1_request).2 = 0 ∧
    (generate_with_retry cohere_adapter
        (fun _ _ => (Except.error (AdapterError.network 503) : Except AdapterError LLMResponse))
        c1_request).1.1 =
      some (.error (.unsupportedModality "command-r-plus")) :=
  validation_failure_before_network_but_retried cohere_adapter _ c1_request
    (by decide) (by decide)

/-- C3: whenever the request carries images and the resolved model's
capability descriptor has no vision support, the retried `generate`
surfaces the unsupported-modality error and issues zero network calls. -/
theorem generate_unsupported_modality_no_network {β : Type} (A : AdapterSpec)
    (net : Nat → LLMRequest → Except AdapterError β) (r : LLMRequest)
    (himg : imagesTruthy r = true)
    (hvis : (A.caps (orDefault r.model A.default_model)).supports_vision = false) :
    (generate_with_retry A net r).1.1 =
      some (.error (.unsupportedModality (orDefault r.model A.default_model))) ∧
    (generate_with_retry A net r).2 = 0 := by
  have hval := validate_request_unsupported A r himg hvis
  have honce : ∀ i, generate_once A (net i) r =
      (.error (.unsupportedModality (orDefault r.model A.default_model)), 0) :=
    fun i => generate_once_of_validation_error A (net i) r _ hval
  have hretry := retry3_const_error (fun i => (generate_once A (net i) r).1)
    (fun _ => .unsupportedModality (orDefault r.model A.default_model))
    (fun n => by simp only [honce n])
  unfold generate_with_retry
  rw [hretry]
  refine ⟨rfl, ?_⟩
  simp [honce]

/-- Witness for C3: an image request against the OpenAI adapter with the
non-vision model `gpt-3.5-turbo` selected. -/
theorem generate_unsupported_modality_no_network_witness :
    (generate_with_retry openai_adapter
        (fun _ _ => (Except.error (AdapterError.network 500) : Except AdapterError LLMResponse))
        ⟨"p", some [⟨"RGB"⟩], 1 / 10, 1000, none, false, some "gpt-3.5-turbo"⟩).1.1 =
      some (.error (.unsupportedModality "gpt-3.5-turbo")) ∧
    (generate_with_retry openai_adapter
        (fun _ _ => (Except.error (AdapterError.network 500) : Except AdapterError LLMResponse))
        ⟨"p", some [⟨"RGB"⟩], 1 / 10, 1000, none, false, some "gpt-3.5-turbo"⟩).2 = 0 :=
  generate_unsupported_modality_no_network openai_adapter _ _ (by decide) (by decide)

/-- A request whose `max_tokens` (9999) exceeds the 4096 ceiling of
`gpt-3.5-turbo` and that also carries an image. -/
def c4_request : LLMRequest :=
  ⟨"p", some [⟨"RGB"⟩], 1 / 10, 9999, none, false, some "gpt-3.5-turbo"⟩

/-- C4 counterexample: a request whose `max_tokens` exceeds the resolved
model's ceiling is not always clamped-and-accepted — when it also carries
images and the model lacks vision support, validation raises the
unsupported-modality error instead of succeeding. -/
theorem clamp_preempted_by_vision_error :
    c4_request.max_tokens > (openai_adapter.caps "gpt-3.5-turbo").max_tokens ∧
    validate_request openai_adapter c4_request =
      .error (.unsupportedModality "gpt-3.5-turbo") ∧
    validate_request openai_adapter c4_request ≠
      .ok { c4_request with max_tokens := (openai_adapter.caps "gpt-3.5-turbo").max_tokens } := by
  have hval : validate_request openai_adapter c4_request =
      .error (.unsupportedModality "gpt-3.5-turbo") := rfl
  refine ⟨by decide, hval, ?_⟩
  intro h
  rw [hval] at h
  exact Except.noConfusion h

/-- C4 (amended): for every request that passes the vision check (no
images, or a vision-capable resolved model) and whose `max_tokens`
exceeds the resolved model's ceiling, validation succeeds and the only
change is `max_tokens` clamped down to that ceiling. -/
theorem validate_clamps_max_tokens (A : AdapterSpec) (r : LLMRequest)
    (hok : ¬ (imagesTruthy r = true ∧
      (A.caps (orDefault r.model A.default_model)).supports_vision = false))
    (hgt : r.max_tokens > (A.caps (orDefault r.model A.default_model)).max_tokens) :
    validate_request A r =
      .ok { r with max_tokens := (A.caps (orDefault r.model A.default_model)).max_tokens } := by
  unfold validate_request
  have hcond : (imagesTruthy r && !(A.caps (orDefault r.model A.default_model)).supports_vision)
      = false := by
    cases himg : imagesTruthy r <;>
      cases hv : (A.caps (orDefault r.model A.default_model)).supports_vision <;>
      simp_all
  simp [hcond, hgt]

/-- Witness for the amended C4: an image-free request for `gpt-3.5-turbo`
asking for 9999 tokens is clamped to 4096 and accepted. -/
theorem validate_clamps_max_tokens_witness :
    validate_request openai_adapter ⟨"p", none, 1 / 10, 9999, none, false, some "gpt-3.5-turbo"⟩ =
      .ok ⟨"p", none, 1 / 10, 4096, none, false, some "gpt-3.5-turbo"⟩ :=
  validate_clamps_max_tokens openai_adapter _ (by decide) (by decide)

/-- C6: `calculate_cost` computes
`(input_tokens/1000) * cost_per_1k_input + (output_tokens/1000) * cost_per_1k_output`
from the resolved model's descriptor, and at 1000 input and 1000 output
tokens it is exactly the sum of the two per-1k cost fields. -/
theorem calculate_cost_formula (A : AdapterSpec) (model : String) (i o : Nat) :
    calculate_cost A i o model =
      ((i : ℚ) / 1000) * (A.caps model).cost_per_1k_input_tokens +
      ((o : ℚ) / 1000) * (A.caps model).cost_per_1k_output_tokens ∧
    calculate_cost A 1000 1000 model =
      (A.caps model).cost_per_1k_input_tokens + (A.caps model).cost_per_1k_output_tokens := by
  refine ⟨rfl, ?_⟩
  unfold calculate_cost
  norm_num

/-- Unknown-model fallback descriptors per adapter (see C7): the
table-based adapters fall back to the dataclass default; Groq falls back
to a richer streaming 8192-token descriptor, the custom adapter and
HuggingFace return one fixed descriptor for every model, and OpenRouter
computes its descriptor, taking the vision flag from a substring match of
the model id against its vision-model list. -/
theorem capability_lookup_fallbacks (m : String) :
    (openai_capabilities_map.find? (fun p => p.1 == m) = none →
      capsFromTable openai_capabilities_map m = ModelCapabilities.default) ∧
    (anthropic_capabilities_map.find? (fun p => p.1 == m) = none →
      capsFromTable anthropic_capabilities_map m = ModelCapabilities.default) ∧
    (gemini_capabilities_map.find? (fun p => p.1 == m) = none →
      capsFromTable gemini_capabilities_map m = ModelCapabilities.default) ∧
    (cohere_capabilities_map.find? (fun p => p.1 == m) = none →
      capsFromTable cohere_capabilities_map m = ModelCapabilities.default) ∧
    (azure_capabilities_map.find? (fun p => p.1 == m) = none →
      capsFromTable azure_capabilities_map m = ModelCapabilities.default) ∧
    (groq_capabilities_map.find? (fun p => p.1 == m) = none →
      groq_get_model_capabilities m = groqFallback m) ∧
    custom_get_model_capabilities m = ⟨true, true, true, 4096, true, 0, 0⟩ ∧
    huggingface_get_model_capabilities m = ⟨false, true, false, 4096, true, 0, 0⟩ ∧
    openrouter_get_model_capabilities m =
      ⟨openrouter_vision_models.any (fun vm => containsSub vm.toList m.toList),
       true, true, 8192, true, 0, 0⟩ := by
  refine ⟨?_, ?_, ?_, ?_, ?_, ?_, rfl, rfl, rfl⟩ <;>
    intro h <;>
    simp [capsFromTable, groq_get_model_capabilities, h]

/-- C7 counterexample: the custom adapter's capability lookup does not
return the permissive default for an unknown model — it reports vision
support where the default reports none. -/
theorem custom_capabilities_not_default :
    custom_get_model_capabilities "mystery-model" ≠ ModelCapabilities.default ∧
    (custom_get_model_capabilities "mystery-model").supports_vision = true ∧
    ModelCapabilities.default.supports_vision = false ∧
    groq_get_model_capabilities "mystery-model" ≠ ModelCapabilities.default ∧
    (groq_get_model_capabilities "mystery-model").max_tokens = 8192 := by
  refine ⟨?_, rfl, rfl, ?_, ?_⟩
  · decide
  · decide
  · decide

/-- Witness for C7 (amended): `mystery-model` is outside every table; the
OpenAI table then falls back to the default descriptor and Groq to its
streaming 8192-token fallback. -/
theorem capability_lookup_fallbacks_witness :
    capsFromTable openai_capabilities_map "mystery-model" = ModelCapabilities.default ∧
    groq_get_model_capabilities "mystery-model" = groqFallback "mystery-model" :=
  ⟨(capability_lookup_fallbacks "mystery-model").1 (by decide),
   (capability_lookup_fallbacks "mystery-model").2.2.2.2.2.1 (by decide)⟩

/-- C8: every entry of every adapter's capability table has non-negative
cost fields and a positive `max_tokens`. -/
theorem capability_table_invariants :
    ∀ pt ∈ all_capability_tables, ∀ e ∈ pt.2,
      0 ≤ e.2.cost_per_1k_input_tokens ∧ 0 ≤ e.2.cost_per_1k_output_tokens ∧
      0 < e.2.max_tokens := by
  intro pt hpt e he
  fin_cases hpt <;> fin_cases he <;>
    refine ⟨?_, ?_, ?_⟩ <;>
    norm_num [mkCaps]

/-- Witness for C8: the `gpt-4o` entry of the OpenAI table. -/
theorem capability_table_invariants_witness :
    0 ≤ (mkCaps true true true 4096 0.005 0.015).cost_per_1k_input_tokens ∧
    0 ≤ (mkCaps true true true 4096 0.005 0.015).cost_per_1k_output_tokens ∧
    0 < (mkCaps true true true 4096 0.005 0.015).max_tokens :=
  capability_table_invariants ("openai", openai_capabilities_map) (List.mem_cons_self _ _)
    ("gpt-4o", mkCaps true true true 4096 0.005 0.015) (List.mem_cons_self _ _)

/-- C5: resolution consults session, then secrets, then environment, in
that order, returning the first tier's value with its source tag; for
Azure, a tier only resolves when it supplies both the key and the
endpoint itself — session wins when complete, then the secret store when
it holds both names, then the environment when both variables are truthy
— and when no single tier is complete the provider is not resolved at
all: mixed tiers never combine. -/
theorem credential_resolution_order (st : CredState) :
    (∀ provider key_name v, provider ≠ "azure" → keyNameFor provider = some key_name →
      st.session_api_keys provider = some v → v ≠ "" →
      get_api_key st provider = (some (.single v), KeySource.session)) ∧
    (∀ provider key_name v, provider ≠ "azure" → keyNameFor provider = some key_name →
      sessionMissing st provider → st.secrets key_name = some v →
      get_api_key st provider = (some (.single v), KeySource.secrets)) ∧
    (∀ provider key_name v, provider ≠ "azure" → keyNameFor provider = some key_name →
      sessionMissing st provider → st.secrets key_name = none →
      st.env key_name = some v → v ≠ "" →
      get_api_key st provider = (some (.single v), KeySource.env)) ∧
    (∀ k, st.session_api_keys "azure" = some k → k ≠ "" → st.azure_endpoint ≠ "" →
      get_api_key st "azure" = (some (.azurePair k st.azure_endpoint), KeySource.session)) ∧
    (∀ k e, ¬ azureSessionResolved st → st.secrets "AZURE_OPENAI_KEY" = some k →
      st.secrets "AZURE_OPENAI_ENDPOINT" = some e →
      get_api_key st "azure" = (some (.azurePair k e), KeySource.secrets)) ∧
    (∀ k e, ¬ azureSessionResolved st → ¬ azureSecretsResolved st →
      st.env "AZURE_OPENAI_KEY" = some k → k ≠ "" →
      st.env "AZURE_OPENAI_ENDPOINT" = some e → e ≠ "" →
      get_api_key st "azure" = (some (.azurePair k e), KeySource.env)) ∧
    (¬ azureSessionResolved st → ¬ azureSecretsResolved st → ¬ azureEnvResolved st →
      get_api_key st "azure" = (none, KeySource.not_set)) := by
  have secrets_of : ∀ key_name v, st.secrets key_name = some v →
      secrets_tier st key_name = (some (.single v), KeySource.secrets) := by
    intro key_name v hv
    unfold secrets_tier
    rw [hv]
  have azure_fall : ¬ azureSessionResolved st →
      get_api_key st "azure" = azure_secrets_tier st := by
    intro hns
    show get_azure_credentials st = _
    unfold get_azure_credentials
    cases hs : st.session_api_keys "azure" with
    | none => rfl
    | some k =>
      by_cases hk : k = ""
      · simp [hk]
      · have hep : ¬ st.azure_endpoint ≠ "" := fun hep => hns ⟨k, hs, hk, hep⟩
        simp [hk, hep]
  have azure_fall2 : ¬ azureSecretsResolved st → azure_secrets_tier st = azure_env_tier st := by
    intro hnsec
    unfold azure_secrets_tier
    cases hsk : st.secrets "AZURE_OPENAI_KEY" with
    | none =>
      cases hse : st.secrets "AZURE_OPENAI_ENDPOINT" with
      | none => rfl
      | some e => rfl
    | some k =>
      cases hse : st.secrets "AZURE_OPENAI_ENDPOINT" with
      | none => rfl
      | some e =>
        exact absurd ⟨by rw [hsk]; rfl, by rw [hse]; rfl⟩ hnsec
  refine ⟨?_, ?_, ?_, ?_, ?_, ?_, ?_⟩
  · intro provider key_name v hp hk hs hv
    simp [get_api_key, hp, hk, hs, hv]
  · intro provider key_name v hp hk hs hv
    rcases hs with hs | hs <;>
      simp [get_api_key, hp, hk, hs, secrets_of key_name v hv]
  · intro provider key_name v hp hk hs hsec henv hv
    have : secrets_tier st key_name = (some (.single v), KeySource.env) := by
      unfold secrets_tier env_tier
      rw [hsec, henv]
      simp [hv]
    rcases hs with hs | hs <;> simp [get_api_key, hp, hk, hs, this]
  · intro k hk hkne hep
    simp [get_api_key, get_azure_credentials, hk, hkne, hep]
  · intro k e hns hk he
    rw [azure_fall hns]
    unfold azure_secrets_tier
    rw [hk, he]
  · intro k e hns hnsec hek hkne hee hene
    rw [azure_fall hns, azure_fall2 hnsec]
    unfold azure_env_tier
    rw [hek, hee]
    simp [hkne, hene]
  · intro hns hnsec hnenv
    rw [azure_fall hns, azure_fall2 hnsec]
    unfold azure_env_tier
    cases hek : st.env "AZURE_OPENAI_KEY" with
    | none => rfl
    | some k =>
      cases hee : st.env "AZURE_OPENAI_ENDPOINT" with
      | none => rfl
      | some e =>
        have : ¬ (k ≠ "" ∧ e ≠ "") := fun ⟨hk, he⟩ => hnenv ⟨k, e, hek, hk, hee, he⟩
        simp only [this, if_false]

/-- A credential state holding the Azure key only in the session tier and
the Azure endpoint only in the environment tier. -/
def credStateMixed : CredState :=
  ⟨fun p => if p = "azure" then some "session-key" else none,
   "",
   fun _ => none,
   fun n => if n = "AZURE_OPENAI_ENDPOINT" then some "https://example.azure.com" else none⟩

/-- Witness for C5: with the Azure key and endpoint split across tiers
and no tier complete, resolution reports the provider unconfigured. -/
theorem credential_resolution_order_witness :
    get_api_key credStateMixed "azure" = (none, KeySource.not_set) :=
  (credential_resolution_order credStateMixed).2.2.2.2.2.2
    (fun ⟨_, _, _, hep⟩ => hep rfl)
    (fun ⟨h1, _⟩ => by simp [credStateMixed] at h1)
    (fun ⟨k, e, hk, _⟩ => by simp [credStateMixed] at hk)

/-- Decoding inverts encoding on each sextet value. -/
lemma decSextet_encSextet : ∀ s, s < 64 → decSextet (encSextet s) = some s := by
  decide

/-- No alphabet character is the padding character. -/
lemma encSextet_ne_padChar : ∀ s, s < 64 → encSextet s ≠ padChar := by
  decide

/-- `b64decode` inverts `b64encode` on every byte sequence. -/
lemma b64_roundtrip : ∀ (bs : List Nat), (∀ b ∈ bs, b < 256) →
    b64DecodeBytes (b64EncodeBytes bs) = some bs
  | [] => fun _ => rfl
  | [b0] => fun h => by
    have hb0 : b0 < 256 := h b0 (by simp)
    have h0 : b0 / 4 < 64 := by omega
    have h1 : b0 % 4 * 16 < 64 := by omega
    show b64DecodeBytes [encSextet (b0 / 4), encSextet (b0 % 4 * 16), padChar, padChar] =
      some [b0]
    simp only [b64DecodeBytes, decSextet_encSextet _ h0, decSextet_encSextet _ h1,
      and_self, if_true, if_pos rfl, Option.some.injEq, List.cons.injEq, and_true]
    omega
  | [b0, b1] => fun h => by
    have hb0 : b0 < 256 := h b0 (by simp)
    have hb1 : b1 < 256 := h b1 (by simp)
    have h0 : b0 / 4 < 64 := by omega
    have h1 : b0 % 4 * 16 + b1 / 16 < 64 := by omega
    have h2 : b1 % 16 * 4 < 64 := by omega
    have n2 : encSextet (b1 % 16 * 4) ≠ padChar := encSextet_ne_padChar _ h2
    show b64DecodeBytes
        [encSextet (b0 / 4), encSextet (b0 % 4 * 16 + b1 / 16), encSextet (b1 % 16 * 4),
         padChar] = some [b0, b1]
    simp only [b64DecodeBytes, decSextet_encSextet _ h0, decSextet_encSextet _ h1,
      decSextet_encSextet _ h2, n2]
    simp only [false_and, and_true, if_true, if_false, ite_true, ite_false, reduceIte,
      Option.some.injEq, List.cons.injEq, and_true]
    omega
  | b0 :: b1 :: b2 :: rest => fun h => by
    have hb0 : b0 < 256 := h b0 (by simp)
    have hb1 : b1 < 256 := h b1 (by simp)
    have hb2 : b2 < 256 := h b2 (by simp)
    have ih := b64_roundtrip rest (fun b hb => h b (by simp [hb]))
    have h0 : b0 / 4 < 64 := by omega
    have h1 : b0 % 4 * 16 + b1 / 16 < 64 := by omega
    have h2 : b1 % 16 * 4 + b2 / 64 < 64 := by omega
    have h3 : b2 % 64 < 64 := by omega
    have n2 : encSextet (b1 % 16 * 4 + b2 / 64) ≠ padChar := encSextet_ne_padChar _ h2
    have n3 : encSextet (b2 % 64) ≠ padChar := encSextet_ne_padChar _ h3
    show b64DecodeBytes
        (encSextet (b0 / 4) :: encSextet (b0 % 4 * 16 + b1 / 16) ::
          encSextet (b1 % 16 * 4 + b2 / 64) :: encSextet (b2 % 64) ::
          b64EncodeBytes rest) = some (b0 :: b1 :: b2 :: rest)
    simp only [b64DecodeBytes, decSextet_encSextet _ h0, decSextet_encSextet _ h1,
      decSextet_encSextet _ h2, decSextet_encSextet _ h3, n2, n3, ih]
    simp only [false_and, and_false, and_true, if_true, if_false, ite_true, ite_false,
      reduceIte, Option.some.injEq, List.cons.injEq]
    omega

/-- C9: for every PNG byte buffer (every byte below 256), base64-decoding
the payload embedded in the adapters' `data:image/png;base64,` URI
recovers that buffer byte for byte — the wire-format encode/decode round
trip is lossless. -/
theorem image_payload_roundtrip (png : List Nat) (h : ∀ b ∈ png, b < 256) :
    (dataUriPayload (encode_image_uri png)).bind b64DecodeBytes = some png := by
  have hd : dataUriPayload (encode_image_uri png) = some (b64EncodeBytes png) := by
    unfold dataUriPayload encode_image_uri
    rw [List.take_left, List.drop_left]
    simp
  rw [hd, Option.some_bind]
  exact b64_roundtrip png h

/-- Witness for C9: the eight-byte PNG signature. -/
theorem image_payload_roundtrip_witness :
    (dataUriPayload (encode_image_uri [137, 80, 78, 71, 13, 10, 26, 10])).bind b64DecodeBytes =
      some [137, 80, 78, 71, 13, 10, 26, 10] :=
  image_payload_roundtrip _ (by decide)
